import Mathlib

/-!
# Formal model of the Agentforce chat components

A shallow embedding, in Lean 4, of the client-side logic of the
`agentforceChat` / `agentforceChatInlineContainer` /
`agentforceChatInlineContainerCPE` Lightning Web Components.

JavaScript strings are modelled as Lean `String` / `List Char`; the JS
string builtins the code uses (`includes`, `split`, `indexOf`,
`substring`, `toLowerCase`, `trim`, `decodeURIComponent`,
`URLSearchParams.get`) are given explicit executable models below.
The single-threaded, cooperative scheduling of the browser (timers and
externally fired events) is modelled as a trace of events processed in
order by a step function over an explicit component state; a timer that
was never scheduled firing in the trace is a no-op, which mirrors the
fact that such a callback does not exist.
-/

namespace AgentforceSpec

/-! ## JS string primitives -/

/-- Model of JS `String.prototype.indexOf` over code-unit lists: the index
of the first occurrence of `need` in the haystack, `none` when absent
(JS returns `-1`). `need = []` yields `some 0`, as in JS. -/
def firstIndexOf (need : List Char) : List Char → Option Nat
  | [] => if need.isPrefixOf ([] : List Char) then some 0 else none
  | c :: rest =>
    if need.isPrefixOf (c :: rest) then some 0
    else (firstIndexOf need rest).map (· + 1)

theorem firstIndexOf_some (need : List Char) :
    ∀ (hay : List Char) (i : Nat), firstIndexOf need hay = some i →
      need.isPrefixOf (hay.drop i) = true ∧ i ≤ hay.length := by
  intro hay
  induction hay with
  | nil =>
    intro i h
    simp only [firstIndexOf] at h
    split at h
    · rename_i hp
      cases h
      exact ⟨hp, Nat.le_refl 0⟩
    · cases h
  | cons c rest ih =>
    intro i h
    simp only [firstIndexOf] at h
    split at h
    · rename_i hp
      cases h
      exact ⟨hp, Nat.zero_le _⟩
    · rcases Option.map_eq_some'.mp h with ⟨j, hj, hji⟩
      rcases ih j hj with ⟨hpre, hle⟩
      subst hji
      exact ⟨hpre, by simpa using Nat.succ_le_succ hle⟩

theorem isPrefixOf_length_le (a b : List Char) (h : a.isPrefixOf b = true) :
    a.length ≤ b.length := by
  induction a generalizing b with
  | nil => simp
  | cons x xs ih =>
    cases b with
    | nil => simp [List.isPrefixOf] at h
    | cons y ys =>
      simp only [List.isPrefixOf, Bool.and_eq_true] at h
      simpa using Nat.succ_le_succ (ih ys h.2)

/-- If `need` occurs at index `i` of `hay`, the occurrence fits: the match
cannot run past the end of the haystack. -/
theorem firstIndexOf_some_le (need hay : List Char) (i : Nat)
    (h : firstIndexOf need hay = some i) : i + need.length ≤ hay.length := by
  rcases firstIndexOf_some need hay i h with ⟨hpre, _⟩
  have hlen : need.length ≤ (hay.drop i).length := isPrefixOf_length_le _ _ hpre
  rw [List.length_drop] at hlen
  omega

/-- Model of JS `String.prototype.includes`. -/
def jsIncludes (s pat : String) : Bool :=
  (firstIndexOf pat.toList s.toList).isSome

/-! ## The `titleParts` getter (agentforceChatInlineContainer)

Translation of the `titleParts` computed property: the welcome title is
split around the first case-insensitive occurrence of the callout word,
which keeps its original casing and is flagged `isCallout`.  Strings are
handled as code-unit lists; `toLowerCase` is modelled per-character with
`Char.toLower` (length-preserving, as for all characters these inputs
use), `indexOf` with `firstIndexOf`, and `substring` with `take`/`drop`. -/

structure TitlePart where
  text : List Char
  isCallout : Bool
deriving DecidableEq

/-- `get titleParts()` from agentforceChatInlineContainer. `title` plays
`this._config.welcomeTitle || ''`, `callout` plays
`this._config.calloutWord || ''`. -/
def titleParts (title callout : List Char) : List TitlePart :=
  if callout = [] then [⟨title, false⟩]
  else
    match firstIndexOf (callout.map Char.toLower) (title.map Char.toLower) with
    | none => [⟨title, false⟩]
    | some i =>
      (if 0 < i then [⟨title.take i, false⟩] else []) ++
      [⟨(title.drop i).take callout.length, true⟩] ++
      (if i + callout.length < title.length then
        [⟨title.drop (i + callout.length), false⟩] else [])

/-- The callout parts that `titleParts` can produce, as a function of the
case-insensitive match position: none when the callout word is empty or
absent, otherwise exactly the matched slice of the original title. -/
def calloutPartsSpec (title callout : List Char) : List TitlePart :=
  if callout = [] then []
  else
    match firstIndexOf (callout.map Char.toLower) (title.map Char.toLower) with
    | none => []
    | some i => [⟨(title.drop i).take callout.length, true⟩]

/-- C9 helper: concatenation of the `text` fields. -/
def joinTexts (parts : List TitlePart) : List Char :=
  (parts.map TitlePart.text).flatten

theorem joinTexts_append (a b : List TitlePart) :
    joinTexts (a ++ b) = joinTexts a ++ joinTexts b := by
  simp [joinTexts]

theorem take_take_drop_drop (t : List Char) (i L : Nat) :
    t.take i ++ ((t.drop i).take L ++ t.drop (i + L)) = t := by
  have h1 : t.drop (i + L) = (t.drop i).drop L := by
    rw [List.drop_drop, Nat.add_comm]
  rw [h1, List.take_append_drop, List.take_append_drop]

/-- C9 (implicit): `titleParts` loses no characters — concatenating the
text of the returned parts restores the title exactly — at most one part
is marked as the callout, and that part is precisely the slice of the
original title (original casing) at the first case-insensitive occurrence
of the callout word. -/
theorem titleParts_reassembles_and_unique_callout (title callout : List Char) :
    joinTexts (titleParts title callout) = title ∧
    (titleParts title callout).countP (fun p => p.isCallout) ≤ 1 ∧
    (titleParts title callout).filter (fun p => p.isCallout) =
      calloutPartsSpec title callout := by
  unfold titleParts calloutPartsSpec
  split
  · simp [joinTexts]
  · rename_i hc
    split
    · simp [joinTexts]
    · rename_i i hidx
      refine ⟨?_, ?_, ?_⟩
      · by_cases hi : 0 < i <;> by_cases hend : i + callout.length < title.length <;>
          simp only [hi, hend, if_true, if_false, joinTexts, List.map_append,
            List.map_cons, List.map_nil, List.flatten_append, List.flatten_cons,
            List.flatten_nil, List.append_nil, List.nil_append, List.append_assoc]
        · exact take_take_drop_drop title i callout.length
        · have hdrop : title.drop (i + callout.length) = [] :=
            List.drop_eq_nil_of_le (by omega)
          have h := take_take_drop_drop title i callout.length
          rw [hdrop, List.append_nil] at h
          exact h
        · have hi0 : i = 0 := by omega
          subst hi0
          simp [take_take_drop_drop title 0 callout.length]
        · have hi0 : i = 0 := by omega
          subst hi0
          have hdrop : title.drop (0 + callout.length) = [] :=
            List.drop_eq_nil_of_le (by omega)
          have h := take_take_drop_drop title 0 callout.length
          rw [hdrop, List.append_nil] at h
          simpa using h
      · by_cases hi : 0 < i <;> by_cases hend : i + callout.length < title.length <;>
          simp [hi, hend, List.countP_append, List.countP_cons]
      · by_cases hi : 0 < i <;> by_cases hend : i + callout.length < title.length <;>
          simp [hi, hend, List.filter_append]

/-! ## URL helpers used by search-query auto-detection

Executable models of the JS builtins used by `_detectSearchQuery`
(agentforceChatInlineContainer) and `_checkAndAutoStartFromSearch`
(agentforceChat): `String.split`, `decodeURIComponent` and
`URLSearchParams.get`. -/

/-- One hex digit, as used in percent escapes. -/
def hexVal (c : Char) : Option Nat :=
  if '0' ≤ c ∧ c ≤ '9' then some (c.toNat - '0'.toNat)
  else if 'a' ≤ c ∧ c ≤ 'f' then some (c.toNat - 'a'.toNat + 10)
  else if 'A' ≤ c ∧ c ≤ 'F' then some (c.toNat - 'A'.toNat + 10)
  else none

/-- Model of `decodeURIComponent` on code-unit lists: each `%XX` escape is
replaced by the character with code `XX`.  (The inputs this code decodes
are single-byte escapes; multi-byte UTF-8 escape sequences are out of
scope of the claims and a malformed escape is kept verbatim rather than
thrown.) -/
def percentDecodeChars : List Char → List Char
  | [] => []
  | '%' :: a :: b :: rest =>
    match hexVal a, hexVal b with
    | some x, some y => Char.ofNat (16 * x + y) :: percentDecodeChars rest
    | _, _ => '%' :: percentDecodeChars (a :: b :: rest)
  | c :: rest => c :: percentDecodeChars rest

/-- Model of `decodeURIComponent` on strings. -/
def decodeURIComponent (s : String) : String :=
  String.mk (percentDecodeChars s.toList)

/-- `String.split` with a non-empty string separator, fuel-driven so that
the recursion is structural (the fuel `s.length + 1` always suffices for a
non-empty separator, since every step consumes at least one character). -/
def splitOnCharsFuel (sep : List Char) : Nat → List Char → List (List Char)
  | 0, s => [s]
  | fuel + 1, s =>
    match firstIndexOf sep s with
    | none => [s]
    | some i => s.take i :: splitOnCharsFuel sep fuel (s.drop (i + sep.length))

/-- Model of JS `String.prototype.split` with a non-empty separator. -/
def splitOnChars (sep s : List Char) : List (List Char) :=
  splitOnCharsFuel sep (s.length + 1) s

/-- Value decoding of `URLSearchParams`: `+` means space, then percent
escapes are decoded. -/
def urlParamDecode (s : List Char) : List Char :=
  percentDecodeChars (s.map fun c => if c = '+' then ' ' else c)

/-- Model of `new URLSearchParams(search).get(key)`: strip a leading `?`,
split on `&`, split each non-empty pair at its first `=`, decode key and
value, and return the value of the first pair whose key matches. -/
def searchParamsGet (search : String) (key : String) : Option String :=
  let body : List Char :=
    match search.toList with
    | '?' :: rest => rest
    | l => l
  let pairs := (splitOnChars ['&'] body).filter (fun p => ¬p.isEmpty)
  let entries := pairs.map fun p =>
    match firstIndexOf ['='] p with
    | none => (urlParamDecode p, ([] : List Char))
    | some i => (urlParamDecode (p.take i), urlParamDecode (p.drop (i + 1)))
  (entries.find? fun e => e.1 = key.toList).map fun e => String.mk e.2

/-- JS truthiness of the `searchQuery` variable: `null` and the empty
string are falsy. -/
def jsTruthy : Option String → Bool
  | none => false
  | some s => !(s == "")

/-- The search-detection settings consumed by `_detectSearchQuery`
(`this._config`) and `_checkAndAutoStartFromSearch` (the registered
container's `searchConfig` / the shared design tokens). -/
structure SearchConfig where
  autoDetectSearchQuery : Bool
  searchPagePath : String
  searchQueryParam : String

/-- Translation of the query-extraction logic of `_detectSearchQuery`
(agentforceChatInlineContainer) — the same URL logic as
`_checkAndAutoStartFromSearch` in agentforceChat: if the pathname contains
the configured search path, try the URL query parameter first, then the
path segment after `searchPagePath + '/'`; a `some` result is exactly the
condition under which the auto-send of the query is scheduled.  `pathname`
plays `window.location.pathname`, `search` plays `window.location.search`. -/
def detectSearchQuery (cfg : SearchConfig) (pathname search : String) : Option String :=
  if !cfg.autoDetectSearchQuery then none
  else if !(jsIncludes pathname cfg.searchPagePath) then none
  else
    let q0 := searchParamsGet search cfg.searchQueryParam
    let q1 :=
      if !(jsTruthy q0) && jsIncludes pathname (cfg.searchPagePath ++ "/") then
        let pathParts := (splitOnChars (cfg.searchPagePath ++ "/").toList
          pathname.toList).map String.mk
        if 1 < pathParts.length then
          some (decodeURIComponent (String.mk
            ((splitOnChars ['/'] ((pathParts.get? 1).getD "").toList).headD [])))
        else q0
      else q0
    if jsTruthy q1 then q1 else none

/-- Split a relative URL into `location.pathname` and `location.search` at
the first `?`. -/
def splitPathQuery (url : String) : String × String :=
  match firstIndexOf ['?'] url.toList with
  | none => (url, "")
  | some i => (String.mk (url.toList.take i), String.mk (url.toList.drop i))

/-- Query extraction applied to a relative URL. -/
def detectSearchQueryFromUrl (cfg : SearchConfig) (url : String) : Option String :=
  detectSearchQuery cfg (splitPathQuery url).1 (splitPathQuery url).2

/-! ## The inline container's welcome screen (agentforceChatInlineContainer) -/

/-- JS whitespace predicate for `String.prototype.trim` (the code points
exercised here are the ASCII ones that `Char.isWhitespace` covers). -/
def isJsWhitespace (c : Char) : Bool := c.isWhitespace

/-- Model of `String.prototype.trim`. -/
def jsTrim (s : String) : String :=
  String.mk (((s.toList.dropWhile isJsWhitespace).reverse.dropWhile
    isJsWhitespace).reverse)

/-- Observable state of the inline container component that
`handleSendMessage` touches: the welcome-screen flag, the text input, and
the `chatstart` custom events dispatched so far (their `detail.message`). -/
structure ContainerState where
  isWelcomeVisible : Bool
  inputMessage : String
  dispatchedChatStarts : List String
deriving DecidableEq

/-- `get isSendDisabled()`: empty or whitespace-only input disables send. -/
def isSendDisabled (s : ContainerState) : Bool :=
  s.inputMessage == "" || jsTrim s.inputMessage == ""

/-- Translation of `handleSendMessage`: refuse when disabled, otherwise
dispatch `chatstart` with the trimmed message and hide the welcome screen
(`_hideWelcome` also clears the input). -/
def handleSendMessage (s : ContainerState) : ContainerState :=
  if isSendDisabled s then s
  else
    let messageText := jsTrim s.inputMessage
    { s with
      dispatchedChatStarts := s.dispatchedChatStarts ++ [messageText],
      isWelcomeVisible := false,
      inputMessage := "" }

/-! ## Configuration resolution

Models of the CPE `value` setter (agentforceChatInlineContainerCPE) and of
`_applyConfig` (agentforceChatInlineContainer).  A JS object is an
association list in which a later entry shadows an earlier one, exactly
the semantics of the object-spread merges `{ ...DEFAULTS, ...filtered }`
and `{ ...config, ...parsed }` used by the code. -/

/-- JSON-representable primitive values the configuration uses. -/
inductive JVal
  | s (v : String)
  | n (v : Int)
  | b (v : Bool)
deriving DecidableEq

/-- A JS object: later entries shadow earlier ones. -/
abbrev JObj := List (String × JVal)

/-- Property lookup: the last binding of the key wins, `none` models
`undefined`. -/
def objGet (o : JObj) (k : String) : Option JVal :=
  (o.reverse.find? fun p => p.1 == k).map fun p => p.2

/-- `AgentforceChatInlineContainerCPE.DEFAULTS`. -/
def cpeDefaults : JObj := [
  ("height", .n 600),
  ("widthPercent", .n 100),
  ("showWelcomeScreen", .b true),
  ("gradientStartColor", .s "#e8f4fd"),
  ("gradientMidColor", .s "#f5f9fc"),
  ("gradientEndColor", .s "#ffffff"),
  ("customizeGradient", .b false),
  ("welcomeTitle", .s "How can Agentforce help?"),
  ("welcomeTitleColor", .s "#032d60"),
  ("calloutWord", .s "Agentforce"),
  ("calloutColor", .s "#0176d3"),
  ("calloutBold", .b true),
  ("calloutItalic", .b false),
  ("calloutFontWeight", .s "700"),
  ("customizeCalloutWord", .b false),
  ("welcomeMessage", .s "Ask questions, get personalized answers, and take action with Agentforce."),
  ("agentPrimaryColor", .s "#0176d3"),
  ("sendButtonColor", .s "#0176d3"),
  ("autoDetectSearchQuery", .b false),
  ("searchPagePath", .s "/global-search"),
  ("searchQueryParam", .s "term"),
  ("searchStartsNewChat", .b true)]

/-- `AgentforceChatInlineContainer.DEFAULTS`. -/
def containerDefaults : JObj := [
  ("height", .n 600),
  ("widthPercent", .n 100),
  ("showWelcomeScreen", .b true),
  ("gradientStartColor", .s "#e8f4fd"),
  ("gradientMidColor", .s "#f5f9fc"),
  ("gradientEndColor", .s "#ffffff"),
  ("welcomeTitle", .s "How can Agentforce help?"),
  ("welcomeTitleColor", .s "#032d60"),
  ("calloutWord", .s "Agentforce"),
  ("calloutColor", .s "#0176d3"),
  ("calloutBold", .b true),
  ("calloutItalic", .b false),
  ("calloutFontWeight", .s "700"),
  ("welcomeMessage", .s "Ask questions, get personalized answers, and take action with Agentforce."),
  ("agentPrimaryColor", .s "#0176d3"),
  ("sendButtonColor", .s "#0176d3"),
  ("autoDetectSearchQuery", .b false),
  ("searchPagePath", .s "/global-search"),
  ("searchQueryParam", .s "term"),
  ("searchStartsNewChat", .b true)]

/-- The defined configuration keys of the CPE. -/
def cpeDefaultKeys : List String := cpeDefaults.map Prod.fst

/-- The defined configuration keys of the inline container. -/
def containerDefaultKeys : List String := containerDefaults.map Prod.fst

/-- A configuration input after the JSON-parsing step both resolvers share:
a string that `JSON.parse` accepts contributes its entries, an object input
contributes its entries, and the empty string, malformed JSON or a
non-object input contributes nothing (`JSON.parse` failures are caught). -/
inductive ConfigInput
  | parsedEntries (entries : JObj)
  | objVal (entries : JObj)
  | emptyOrMalformed

/-- The entries the input contributes (`parsed` in both functions). -/
def parsedOf : ConfigInput → JObj
  | .parsedEntries e => e
  | .objVal e => e
  | .emptyOrMalformed => []

/-- The CPE setter's empty-string filter:
`Object.entries(parsed).filter(([, v]) => v !== '')`. -/
def filteredOf (input : ConfigInput) : JObj :=
  (parsedOf input).filter fun p => !(p.2 == JVal.s "")

/-- Translation of the CPE `set value(val)` body (timing guard aside):
parse, drop empty-string values, merge over the defaults. -/
def cpeSetValue (input : ConfigInput) : JObj :=
  cpeDefaults ++ filteredOf input

/-- Translation of `_applyConfig` (agentforceChatInlineContainer): parse
and merge over the defaults — with no empty-string filter. -/
def applyConfig (input : ConfigInput) : JObj :=
  containerDefaults ++ parsedOf input

theorem objGet_append (a b : JObj) (k : String) :
    objGet (a ++ b) k = ((objGet b k).orElse fun _ => objGet a k) := by
  rw [objGet, List.reverse_append, List.find?_append, objGet, objGet]
  cases b.reverse.find? fun p => p.1 == k <;> simp

theorem objGet_mem_of_eq_some (o : JObj) (k : String) (v : JVal)
    (h : objGet o k = some v) : ∃ p ∈ o, p.2 = v := by
  rw [objGet] at h
  rcases Option.map_eq_some'.mp h with ⟨p, hp, hpv⟩
  exact ⟨p, (List.mem_reverse).mp (List.mem_of_find?_eq_some hp), hpv⟩

theorem objGet_ne_empty_of_all (o : JObj) (k : String)
    (h : ∀ p ∈ o, ¬p.2 = JVal.s "") : ¬objGet o k = some (JVal.s "") := by
  intro hcontra
  rcases objGet_mem_of_eq_some o k (JVal.s "") hcontra with ⟨p, hp, hpv⟩
  exact h p hp hpv

/-- C6 counterexample: (a) an unknown key supplied by the host is **not**
ignored — it is merged into the resolved CPE record and survives there;
(b) in the container's `_applyConfig`, an empty-string host value **does**
override the default (`welcomeTitle` resolves to `""` instead of the
default `"How can Agentforce help?"`). -/
theorem config_unknown_key_and_empty_string_counterexample :
    objGet (cpeSetValue (.objVal [("bogus", JVal.s "x")])) "bogus" =
      some (JVal.s "x") ∧
    objGet (applyConfig (.objVal [("welcomeTitle", JVal.s "")]))
      "welcomeTitle" = some (JVal.s "") ∧
    objGet containerDefaults "welcomeTitle" =
      some (JVal.s "How can Agentforce help?") :=
  ⟨by decide, by decide, by decide⟩

/-- C6 (amended): for every configuration input, each key of the resolved
record is the host-supplied value when one survives parsing (and, for the
CPE setter, the empty-string filter), and the default otherwise; every
defined key is therefore always present; malformed / empty / non-object
input yields exactly the default record in both resolvers; the CPE
setter never lets an empty string through.  (Host entries for unknown
keys are retained in the merged record, and `_applyConfig` performs no
empty-string filtering — the two respects in which the original claim
fails.) -/
theorem config_resolution_spec (input : ConfigInput) (k : String) :
    objGet (cpeSetValue input) k =
      ((objGet (filteredOf input) k).orElse fun _ => objGet cpeDefaults k) ∧
    objGet (applyConfig input) k =
      ((objGet (parsedOf input) k).orElse fun _ => objGet containerDefaults k) ∧
    (cpeDefaultKeys.all fun key => (objGet (cpeSetValue input) key).isSome) = true ∧
    (containerDefaultKeys.all fun key =>
      (objGet (applyConfig input) key).isSome) = true ∧
    ¬objGet (cpeSetValue input) k = some (JVal.s "") ∧
    cpeSetValue .emptyOrMalformed = cpeDefaults ∧
    applyConfig .emptyOrMalformed = containerDefaults := by
  have hcpe : ∀ key, objGet (cpeSetValue input) key =
      ((objGet (filteredOf input) key).orElse fun _ => objGet cpeDefaults key) :=
    fun key => objGet_append cpeDefaults (filteredOf input) key
  have happly : ∀ key, objGet (applyConfig input) key =
      ((objGet (parsedOf input) key).orElse fun _ =>
        objGet containerDefaults key) :=
    fun key => objGet_append containerDefaults (parsedOf input) key
  refine ⟨hcpe k, happly k, ?_, ?_, ?_, ?_, ?_⟩
  · rw [List.all_eq_true]
    intro key hkey
    rw [hcpe key]
    have hdef : (objGet cpeDefaults key).isSome = true := by
      have : (cpeDefaultKeys.all fun key => (objGet cpeDefaults key).isSome)
          = true := by decide
      exact List.all_eq_true.mp this key hkey
    cases hfil : objGet (filteredOf input) key <;> simp_all
  · rw [List.all_eq_true]
    intro key hkey
    rw [happly key]
    have hdef : (objGet containerDefaults key).isSome = true := by
      have : (containerDefaultKeys.all fun key =>
          (objGet containerDefaults key).isSome) = true := by decide
      exact List.all_eq_true.mp this key hkey
    cases hpar : objGet (parsedOf input) key <;> simp_all
  · rw [hcpe k]
    have hdefok : ∀ p ∈ cpeDefaults, ¬p.2 = JVal.s "" := by decide
    have hfilok : ∀ p ∈ filteredOf input, ¬p.2 = JVal.s "" := by
      intro p hp
      have := List.of_mem_filter hp
      simpa using this
    cases hfil : objGet (filteredOf input) k with
    | none =>
      simpa using objGet_ne_empty_of_all cpeDefaults k hdefok
    | some v =>
      rcases objGet_mem_of_eq_some _ k v hfil with ⟨p, hp, hpv⟩
      have := hfilok p hp
      rw [hpv] at this
      have hred : ((some v).orElse fun _ => objGet cpeDefaults k) = some v := rfl
      rw [hred]
      exact fun hcontra => this (by injection hcontra)
  · rw [cpeSetValue]
    simp [filteredOf, parsedOf]
  · rw [applyConfig]
    simp [parsedOf]

/-- Witness for C6 at a concrete host input: the host-supplied
`welcomeTitle` wins, and the resolved value is never the empty string. -/
theorem config_resolution_spec_witness :
    objGet (cpeSetValue (.objVal [("welcomeTitle", JVal.s "Hi")]))
      "welcomeTitle" =
      ((objGet (filteredOf (.objVal [("welcomeTitle", JVal.s "Hi")]))
        "welcomeTitle").orElse fun _ => objGet cpeDefaults "welcomeTitle") ∧
    ¬objGet (cpeSetValue (.objVal [("welcomeTitle", JVal.s "Hi")]))
      "welcomeTitle" = some (JVal.s "") :=
  ⟨(config_resolution_spec (.objVal [("welcomeTitle", JVal.s "Hi")])
      "welcomeTitle").1,
   (config_resolution_spec (.objVal [("welcomeTitle", JVal.s "Hi")])
      "welcomeTitle").2.2.2.2.1⟩

/-! ## Container welcome-screen / send-path theorems (C10) -/

/-- C10 (implicit): submitting an empty or whitespace-only input through
`handleSendMessage` dispatches no `chatstart` event and leaves the
container state — welcome-screen visibility and stored input included —
unchanged. -/
theorem handleSendMessage_whitespace_noop (s : ContainerState)
    (h : s.inputMessage.toList.all isJsWhitespace = true) :
    handleSendMessage s = s := by
  have hdrop : s.inputMessage.toList.dropWhile isJsWhitespace = [] := by
    rw [List.dropWhile_eq_nil_iff]
    intro x hx
    exact List.all_eq_true.mp h x hx
  have htrim : jsTrim s.inputMessage = "" := by
    rw [jsTrim, hdrop]
    rfl
  have hdis : isSendDisabled s = true := by
    rw [isSendDisabled, htrim]
    simp
  rw [handleSendMessage, hdis]
  simp

/-- Witness for C10 at a concrete whitespace-only input. -/
theorem handleSendMessage_whitespace_noop_witness :
    (⟨true, "  ", []⟩ : ContainerState).inputMessage.toList.all
      isJsWhitespace = true ∧
    handleSendMessage ⟨true, "  ", []⟩ = (⟨true, "  ", []⟩ : ContainerState) :=
  ⟨by decide, handleSendMessage_whitespace_noop ⟨true, "  ", []⟩ (by decide)⟩

/-! ## Search-extraction theorems (C7) -/

/-- The configuration of the claimed scenario: detection on, path pattern
`/global-search`, query parameter `term` (the shipped defaults). -/
def globalSearchConfig : SearchConfig := ⟨true, "/global-search", "term"⟩

/-- C7: with path pattern `/global-search` and query parameter `term`,
`/global-search?term=refund%20policy` extracts `refund policy`,
`/global-search/refund%20status` extracts `refund status`, and any URL
whose path does not contain the pattern extracts nothing — so no
auto-start is scheduled. -/
theorem detectSearchQuery_spec :
    detectSearchQueryFromUrl globalSearchConfig
      "/global-search?term=refund%20policy" = some "refund policy" ∧
    detectSearchQueryFromUrl globalSearchConfig
      "/global-search/refund%20status" = some "refund status" ∧
    ∀ pathname search : String,
      jsIncludes pathname "/global-search" = false →
      detectSearchQuery globalSearchConfig pathname search = none := by
  refine ⟨by decide, by decide, ?_⟩
  intro pathname search h
  rw [detectSearchQuery]
  simp [globalSearchConfig, h]

/-- Witness for C7's universally quantified part at a concrete non-search
URL. -/
theorem detectSearchQuery_spec_witness :
    jsIncludes "/home" "/global-search" = false ∧
    detectSearchQuery globalSearchConfig "/home" "" = none :=
  ⟨by decide, detectSearchQuery_spec.2.2 "/home" "" (by decide)⟩

/-! ## The orchestrator (agentforceChat)

State of the `AgentforceChat` component together with the DOM facts its
code observes and the external calls it makes.  Each method below is a
direct translation of the correspondingly named method of the source.
Environment facts (presence of the registered container handle, of the
`embedded-messaging` element and its iframe, availability of
`embeddedservice_bootstrap` and its `utilAPI`) are plain fields that only
the modelled operations change.  External calls with observable effect
are recorded in an append-only `log`.

The registered container handle comes from agentforceChatInlineContainer,
which exposes `showChat` / `hideWelcome` / `showWelcome` / `reset` /
`getInputMessage` but none of the optional loading callbacks
(`showLoading` / `completeLoading` / `hideLoading` /
`updateLoadingProgress`), so every `container?.<loading op>` optional
call in the source takes its fallback path here. -/

/-- Externally observable calls made by the orchestrator. -/
inductive Act
  | clearStorage
  | initCall
  | launch
  | sendText (m : String)
  | publishActivity (eventType : String)
  | scheduleReInit
  | showToastWarning
  | containerReset
  | removeIframe
deriving DecidableEq

/-- Orchestrator state (fields of `AgentforceChat`, the local state of its
active watcher closures, and the DOM/environment facts the code reads). -/
structure ChatState where
  pendingMessage : Option String
  messageSent : Bool
  greetingWatcherActive : Bool
  greetingDetected : Bool
  handlerAttached : Bool
  currentRetry : Nat
  retryTimerScheduled : Bool
  sendTimerScheduled : Bool
  projectionComplete : Bool
  projectionAttempts : Nat
  containerElementSet : Bool
  inFabModeOverride : Bool
  conversationEnded : Bool
  bootstrapInitialized : Bool
  apiReady : Bool
  sessionId : Option String
  messageCount : Nat
  minimizeObserverActive : Bool
  minimizeWasMaximized : Bool
  pendingMinimizeConfirms : Nat
  welcomeVisible : Bool
  projectionStylesInjected : Bool
  hideFabStylesInjected : Bool
  initialHidingStylesInjected : Bool
  emProjectedInlineClass : Bool
  emShowChatClass : Bool
  languageConfigured : Bool
  messagingReadyListenerAttached : Bool
  conversationStartListenerAttached : Bool
  activityListenersAttached : Bool
  widgetStoragePresent : Bool
  iframeMaximized : Bool
  iframePresent : Bool
  embeddedMessagingPresent : Bool
  containerPresent : Bool
  containerVisible : Bool
  bootstrapPresent : Bool
  utilApiAvailable : Bool
  sendTextThrows : Bool
  freshSessionId : String
  log : List Act
deriving DecidableEq

/-- `maxRetries` of `_watchForAgentGreeting`. -/
def greetingMaxRetries : Nat := 15

/-- `timeoutMs` of `_watchForAgentGreeting` (milliseconds). -/
def greetingRetryTimeoutMs : Nat := 4000

/-- `_hideFabButton`: inject the FAB-hiding style sheet once. -/
def hideFabButton (s : ChatState) : ChatState :=
  if s.hideFabStylesInjected then s else { s with hideFabStylesInjected := true }

/-- `_injectInitialHidingStyles`. -/
def injectInitialHidingStyles (s : ChatState) : ChatState :=
  if s.initialHidingStylesInjected then s
  else { s with initialHidingStylesInjected := true }

/-- `_injectProjectionStyles`. -/
def injectProjectionStyles (s : ChatState) : ChatState :=
  if s.projectionStylesInjected then s
  else { s with projectionStylesInjected := true }

/-- `_watchForMinimize`: (re)connect the class-mutation observer on the
`embedded-messaging` subtree; the closure-local `wasMaximized` starts
`true`. -/
def watchForMinimize (s : ChatState) : ChatState :=
  { s with minimizeObserverActive := true, minimizeWasMaximized := true }

/-- `_setupMessagingReadyListener`. -/
def setupMessagingReadyListener (s : ChatState) : ChatState :=
  { s with messagingReadyListenerAttached := true }

/-- `_setupConversationStartListener`: a no-op when already attached. -/
def setupConversationStartListener (s : ChatState) : ChatState :=
  if s.conversationStartListenerAttached then s
  else { s with conversationStartListenerAttached := true }

/-- `_setupActivityEventListeners`: generates a session id when none is
set, then registers the tracked embedded-service listeners. -/
def setupActivityEventListeners (s : ChatState) : ChatState :=
  let s := if s.sessionId = none then { s with sessionId := some s.freshSessionId }
           else s
  { s with activityListenersAttached := true }

/-- `_clearEmbeddedServiceStoragePreInit`: drop the widget's persisted
session/local-storage keys (the component's own `agentforce_` keys are
kept, hence `conversationEnded` is untouched). -/
def clearEmbeddedServiceStoragePreInit (s : ChatState) : ChatState :=
  { s with widgetStoragePresent := false, log := s.log ++ [Act.clearStorage] }

/-- `_cleanupInlineStyles`: remove the three injected style sheets, strip
the projection classes off `embedded-messaging` and reset all projection
state. -/
def cleanupInlineStyles (s : ChatState) : ChatState :=
  let s := { s with hideFabStylesInjected := false,
                    initialHidingStylesInjected := false,
                    projectionStylesInjected := false }
  let s := if s.embeddedMessagingPresent then
             { s with emProjectedInlineClass := false, emShowChatClass := false }
           else s
  { s with containerElementSet := false, projectionComplete := false,
           projectionAttempts := 0 }

/-- `_projectChatToContainer`: a no-op once complete or while the user has
forced FAB mode; retries (with an attempt counter) while the container
handle or the `embedded-messaging` element is missing; otherwise adds the
projection classes, injects the overlay styles, starts the minimize
watcher, syncs position, hides the FAB and latches `projectionComplete`. -/
def projectChatToContainer (s : ChatState) : ChatState :=
  if s.projectionComplete then s
  else if s.inFabModeOverride then s
  else if !s.containerPresent then
    { s with projectionAttempts := s.projectionAttempts + 1 }
  else if !s.embeddedMessagingPresent then
    { s with projectionAttempts := s.projectionAttempts + 1 }
  else
    let s := { s with emProjectedInlineClass := true, emShowChatClass := true,
                      containerElementSet := true }
    let s := injectProjectionStyles s
    let s := watchForMinimize s
    let s := hideFabButton s
    { s with projectionComplete := true }

/-- `_attemptReInit`: mark the conversation ended, reset bootstrap state,
remove the widget iframe, clear persisted widget storage, then schedule
the delayed re-initialization (`setTimeout(... _initializeChat, 500)`). -/
def attemptReInit (s : ChatState) : ChatState :=
  let s := { s with conversationEnded := true }
  let s := { s with bootstrapInitialized := false, apiReady := false }
  let s := if s.embeddedMessagingPresent && s.iframePresent then
             { s with iframePresent := false, log := s.log ++ [Act.removeIframe] }
           else s
  let s := clearEmbeddedServiceStoragePreInit s
  { s with log := s.log ++ [Act.scheduleReInit] }

/-- `_handleAgentGreetingTimeout`: warn the user, clear pending-message
and projection state, show the welcome screen again (`container.reset()`),
and attempt one re-initialization.  (The registered container exposes no
`hideLoading`, so that optional call is skipped.) -/
def handleAgentGreetingTimeout (s : ChatState) : ChatState :=
  let s := { s with log := s.log ++ [Act.showToastWarning] }
  let s := { s with pendingMessage := none, messageSent := false,
                    greetingWatcherActive := false }
  let s := { s with projectionComplete := false, projectionAttempts := 0,
                    containerElementSet := false }
  let s := if s.containerPresent then
             { s with welcomeVisible := true, log := s.log ++ [Act.containerReset] }
           else s
  attemptReInit s

/-- One firing of the greeting watcher's retry timer (`scheduleRetry`'s
`setTimeout` body).  A tick of a timer that is not scheduled does not
exist and is a no-op.  A fired tick re-arms the timer only on the retry
branch; when the greeting has been detected (or the message already sent)
the stale tick dies silently, and when the budget is exhausted the
listener is detached and the timeout handler runs. -/
def greetingRetryTick (s : ChatState) : ChatState :=
  if !s.retryTimerScheduled then s
  else
    let s := { s with retryTimerScheduled := false }
    if s.greetingDetected || s.messageSent then s
    else if s.currentRetry < greetingMaxRetries then
      let s := { s with currentRetry := s.currentRetry + 1,
                        retryTimerScheduled := true }
      if s.utilApiAvailable then { s with log := s.log ++ [Act.launch] } else s
    else
      let s := { s with handlerAttached := false, greetingWatcherActive := false }
      handleAgentGreetingTimeout s

/-- The greeting watcher's `onEmbeddedMessageSent` handler
(`messageHandler`): only reachable while the listener is attached; a
message whose sender is the end user is ignored; the first qualifying
message latches `greetingDetected`, detaches the listener, projects the
chat (the container exposes no `completeLoading`, so the fallback branch
runs) and schedules the delayed `_sendPendingMessage`. -/
def greetingMessageEvent (s : ChatState) (sender : String) : ChatState :=
  if !s.handlerAttached then s
  else if s.greetingDetected || s.messageSent then s
  else if sender == "EndUser" then s
  else
    let s := { s with greetingDetected := true, greetingWatcherActive := false,
                      handlerAttached := false }
    let s := projectChatToContainer s
    { s with sendTimerScheduled := true }

/-- `_sendPendingMessage`: nothing to do without a pending message or once
sent; with `sendTextMessage` unavailable, or throwing, a retry timer is
scheduled; otherwise the message is delivered exactly here and
`messageSent` latches. -/
def sendPendingMessage (s : ChatState) : ChatState :=
  match s.pendingMessage with
  | none => s
  | some m =>
    if s.messageSent then s
    else if !s.utilApiAvailable then { s with sendTimerScheduled := true }
    else if s.sendTextThrows then { s with sendTimerScheduled := true }
    else { s with messageSent := true, log := s.log ++ [Act.sendText m] }

/-- One firing of a scheduled `_sendPendingMessage` timer. -/
def sendFlushStep (s : ChatState) : ChatState :=
  if !s.sendTimerScheduled then s
  else sendPendingMessage { s with sendTimerScheduled := false }

/-- `_watchForAgentGreeting`: refused without a pending unsent message and
while a watcher is already active; otherwise activates the watcher,
attaches the message listener once, and arms the first retry tick.  (The
registered container exposes no `updateLoadingProgress`, so no progress
interval is started.) -/
def watchForAgentGreeting (s : ChatState) : ChatState :=
  if s.pendingMessage.isNone || s.messageSent then s
  else if s.greetingWatcherActive then s
  else { s with greetingWatcherActive := true, greetingDetected := false,
                currentRetry := 0, handlerAttached := true,
                retryTimerScheduled := true }

/-- `_endChatAndReset`: disconnect the minimize observer, strip the inline
styles, reset the container to its welcome screen, clear pending-message
and projection state, publish `SESSION_ENDED` and clear the session
counters. -/
def endChatAndReset (s : ChatState) : ChatState :=
  let s := { s with minimizeObserverActive := false }
  let s := cleanupInlineStyles s
  let s := if s.containerPresent then
             { s with welcomeVisible := true, log := s.log ++ [Act.containerReset] }
           else s
  let s := { s with projectionComplete := false, pendingMessage := none,
                    messageSent := false }
  let s := { s with log := s.log ++ [Act.publishActivity "SESSION_ENDED"] }
  { s with sessionId := none, messageCount := 0 }

/-- A `class`-attribute mutation on the widget iframe
(`iframe[name="embeddedMessagingFrame"]`), observed by the
`_watchForMinimize` MutationObserver: the DOM state changes first; the
callback then ignores it outside inline mode, schedules the 100 ms
confirmation check on a maximized→non-maximized transition, and records
the new state in the closure-local `wasMaximized`. -/
def minimizeClassMutation (s : ChatState) (isMax : Bool) : ChatState :=
  let s := { s with iframeMaximized := isMax }
  if !s.minimizeObserverActive then s
  else if !s.containerVisible || s.inFabModeOverride then s
  else
    let s := if s.minimizeWasMaximized && !isMax then
               { s with pendingMinimizeConfirms := s.pendingMinimizeConfirms + 1 }
             else s
    { s with minimizeWasMaximized := isMax }

/-- One firing of a scheduled minimize-confirmation timeout: re-check the
iframe's live class list; only a still-not-maximized iframe confirms the
minimize and ends the chat. -/
def minimizeConfirm (s : ChatState) : ChatState :=
  if s.pendingMinimizeConfirms = 0 then s
  else
    let s := { s with pendingMinimizeConfirms := s.pendingMinimizeConfirms - 1 }
    if !s.iframeMaximized then endChatAndReset s else s

/-- `_initializeChat`: refused while initialized or without the bootstrap
object.  With an existing widget (`embedded-messaging` element with an
iframe) the init call is skipped: listeners are (re)attached and, with a
container on the page, the projection is redone (re-maximizing a
minimized widget).  Otherwise the fresh path runs: persisted widget
storage is cleared first whenever the durable conversation-ended flag is
set (and the flag dropped), the hiding styles go in when a container is
visible, and `bootstrap.init(...)` is invoked. -/
def initializeChat (s : ChatState) : ChatState :=
  if s.bootstrapInitialized then s
  else if !s.bootstrapPresent then s
  else
    let hasContainer := s.containerVisible
    if s.embeddedMessagingPresent && s.iframePresent then
      let s := setupMessagingReadyListener s
      let s := { s with bootstrapInitialized := true }
      let s :=
        if hasContainer then
          let s := hideFabButton s
          let s := { s with containerElementSet := false,
                            projectionComplete := false, projectionAttempts := 0 }
          let s := { s with emProjectedInlineClass := false,
                            emShowChatClass := false }
          let isMax := s.iframeMaximized
          let s := if s.containerPresent then { s with welcomeVisible := false }
                   else s
          let s := projectChatToContainer s
          if !isMax && s.utilApiAvailable then
            { s with log := s.log ++ [Act.launch] }
          else s
        else
          cleanupInlineStyles s
      if s.utilApiAvailable then
        let s := { s with apiReady := true }
        let s := setupConversationStartListener s
        setupActivityEventListeners s
      else s
    else
      let s :=
        if s.conversationEnded then
          let s := clearEmbeddedServiceStoragePreInit s
          { s with conversationEnded := false }
        else s
      let s := if hasContainer then injectInitialHidingStyles s else s
      let s := { s with languageConfigured := true }
      let s := setupMessagingReadyListener s
      let s := { s with log := s.log ++ [Act.initCall] }
      { s with bootstrapInitialized := true }

/-- The cooperative suspension points relevant to the claims: a widget
message event, the greeting watcher's retry timer, a scheduled
`_sendPendingMessage` timer, a class mutation on the widget iframe, and a
scheduled minimize-confirmation timeout. -/
inductive ChatEvent
  | msgEvent (sender : String)
  | retryTick
  | sendFlush
  | classMutation (isMax : Bool)
  | minimizeConfirmTick
deriving DecidableEq

/-- Dispatch one event. -/
def chatStep (s : ChatState) : ChatEvent → ChatState
  | .msgEvent sender => greetingMessageEvent s sender
  | .retryTick => greetingRetryTick s
  | .sendFlush => sendFlushStep s
  | .classMutation isMax => minimizeClassMutation s isMax
  | .minimizeConfirmTick => minimizeConfirm s

/-- Run a trace of events in order. -/
def runTrace (s : ChatState) : List ChatEvent → ChatState
  | [] => s
  | e :: es => runTrace (chatStep s e) es

/-- The messages delivered to `utilAPI.sendTextMessage`, in order. -/
def sendsIn (l : List Act) : List String :=
  l.filterMap fun a => match a with | .sendText m => some m | _ => none

/-- How many `utilAPI.launchChat()` calls a log records. -/
def launchesIn (l : List Act) : Nat :=
  l.countP fun a => match a with | .launch => true | _ => false

/-- How many re-initializations a log schedules. -/
def reInitsIn (l : List Act) : Nat :=
  l.countP fun a => match a with | .scheduleReInit => true | _ => false

/-- Retry-timer firings contained in a trace. -/
def countRetryTicks (es : List ChatEvent) : Nat :=
  es.countP fun e => match e with | .retryTick => true | _ => false

/-- A neutral concrete state used by the witnesses. -/
def baseState : ChatState where
  pendingMessage := none
  messageSent := false
  greetingWatcherActive := false
  greetingDetected := false
  handlerAttached := false
  currentRetry := 0
  retryTimerScheduled := false
  sendTimerScheduled := false
  projectionComplete := false
  projectionAttempts := 0
  containerElementSet := false
  inFabModeOverride := false
  conversationEnded := false
  bootstrapInitialized := false
  apiReady := false
  sessionId := none
  messageCount := 0
  minimizeObserverActive := false
  minimizeWasMaximized := false
  pendingMinimizeConfirms := 0
  welcomeVisible := true
  projectionStylesInjected := false
  hideFabStylesInjected := false
  initialHidingStylesInjected := false
  emProjectedInlineClass := false
  emShowChatClass := false
  languageConfigured := false
  messagingReadyListenerAttached := false
  conversationStartListenerAttached := false
  activityListenersAttached := false
  widgetStoragePresent := true
  iframeMaximized := false
  iframePresent := false
  embeddedMessagingPresent := true
  containerPresent := true
  containerVisible := true
  bootstrapPresent := true
  utilApiAvailable := true
  sendTextThrows := false
  freshSessionId := "af-session"
  log := []

/-! ## Basic facts about the orchestrator operations -/

theorem runTrace_append (s : ChatState) (l1 l2 : List ChatEvent) :
    runTrace s (l1 ++ l2) = runTrace (runTrace s l1) l2 := by
  induction l1 generalizing s with
  | nil => rfl
  | cons e es ih => rw [List.cons_append, runTrace, runTrace, ih]

theorem hideFabButton_eq (s : ChatState) :
    hideFabButton s = { s with hideFabStylesInjected := true } := by
  rw [hideFabButton]
  split
  · rename_i h
    rw [← h]
  · rfl

theorem injectProjectionStyles_eq (s : ChatState) :
    injectProjectionStyles s = { s with projectionStylesInjected := true } := by
  rw [injectProjectionStyles]
  split
  · rename_i h
    rw [← h]
  · rfl

theorem injectInitialHidingStyles_eq (s : ChatState) :
    injectInitialHidingStyles s = { s with initialHidingStylesInjected := true } := by
  rw [injectInitialHidingStyles]
  split
  · rename_i h
    rw [← h]
  · rfl

/-! ## C5: projection idempotence -/

/-- C5: once the `projectionComplete` latch is set, calling
`_projectChatToContainer` again is a complete no-op — the state, including
every style/class/listener/log field, is unchanged — until some reset path
clears the latch. -/
theorem projectChatToContainer_idempotent (s : ChatState)
    (h : s.projectionComplete = true) : projectChatToContainer s = s := by
  rw [projectChatToContainer, h]
  simp

/-- A projected state, for the C5 witness. -/
def projectedState : ChatState := { baseState with projectionComplete := true }

/-- Witness for C5 at a concrete projected state. -/
theorem projectChatToContainer_idempotent_witness :
    projectedState.projectionComplete = true ∧
    projectChatToContainer projectedState = projectedState :=
  ⟨rfl, projectChatToContainer_idempotent projectedState rfl⟩

/-! ## C3: storage cleared before init when the conversation had ended -/

/-- C3: on every fresh initialization run (no surviving widget iframe)
with the durable conversation-ended flag set, the persisted widget storage
is cleared strictly before `bootstrap.init` is called — the appended log
is exactly `[clearStorage, initCall]` — and the conversation-ended flag is
false immediately after initialization. -/
theorem initializeChat_clears_storage_before_init (s : ChatState)
    (hinit : s.bootstrapInitialized = false)
    (hboot : s.bootstrapPresent = true)
    (hended : s.conversationEnded = true)
    (hfresh : (s.embeddedMessagingPresent && s.iframePresent) = false) :
    (initializeChat s).conversationEnded = false ∧
    (initializeChat s).log = s.log ++ [Act.clearStorage, Act.initCall] ∧
    (initializeChat s).bootstrapInitialized = true := by
  rw [initializeChat]
  simp only [hinit, hboot, hended, hfresh, Bool.not_true, Bool.false_eq_true,
    if_false, ite_false, ite_true]
  rw [clearEmbeddedServiceStoragePreInit, setupMessagingReadyListener]
  by_cases hc : s.containerVisible = true <;>
    simp [hc, injectInitialHidingStyles_eq]

/-- An ended-conversation state awaiting fresh init, for the C3 witness. -/
def endedFreshState : ChatState :=
  { baseState with conversationEnded := true, embeddedMessagingPresent := false }

/-- Witness for C3 at a concrete ended-conversation state. -/
theorem initializeChat_clears_storage_before_init_witness :
    endedFreshState.conversationEnded = true ∧
    (initializeChat endedFreshState).conversationEnded = false ∧
    (initializeChat endedFreshState).log =
      endedFreshState.log ++ [Act.clearStorage, Act.initCall] ∧
    (initializeChat endedFreshState).bootstrapInitialized = true :=
  ⟨rfl, initializeChat_clears_storage_before_init endedFreshState rfl rfl rfl rfl⟩

/-! ## C4: the pending message is delivered at most once -/

/-- Repeated invocation of the `_sendPendingMessage` path. -/
def iterSendPending : Nat → ChatState → ChatState
  | 0, s => s
  | n + 1, s => iterSendPending n (sendPendingMessage s)

theorem sendPendingMessage_of_sent (s : ChatState) (h : s.messageSent = true) :
    sendPendingMessage s = s := by
  rw [sendPendingMessage]
  cases hp : s.pendingMessage <;> simp [h]

theorem iterSendPending_of_sent (n : Nat) (s : ChatState)
    (h : s.messageSent = true) : iterSendPending n s = s := by
  induction n with
  | zero => rfl
  | succ n ih => rw [iterSendPending, sendPendingMessage_of_sent s h, ih]

theorem sendPendingMessage_step_cases (s : ChatState) :
    ((sendPendingMessage s).log = s.log ∧
      (sendPendingMessage s).messageSent = s.messageSent) ∨
    (∃ m, s.pendingMessage = some m ∧ s.messageSent = false ∧
      (sendPendingMessage s).log = s.log ++ [Act.sendText m] ∧
      (sendPendingMessage s).messageSent = true) := by
  rw [sendPendingMessage]
  cases hp : s.pendingMessage with
  | none => left; exact ⟨rfl, rfl⟩
  | some m =>
    by_cases hsent : s.messageSent = true
    · left; simp [hsent]
    · by_cases hav : s.utilApiAvailable = true
      · by_cases hthrow : s.sendTextThrows = true
        · left; simp [hsent, hav, hthrow]
        · right
          refine ⟨m, rfl, by simpa using hsent, ?_, ?_⟩ <;>
            simp [hsent, hav, hthrow]
      · left; simp [hsent, hav]

/-- C4: within one pending-message session (no reset in between), however
many times `_sendPendingMessage` runs, at most one message is delivered to
`utilAPI.sendTextMessage`; the `messageSent` latch makes every invocation
after a successful delivery a complete no-op. -/
theorem sendPendingMessage_at_most_once (s : ChatState) (n : Nat) :
    (sendsIn (iterSendPending n s).log).length ≤ (sendsIn s.log).length + 1 ∧
    (s.messageSent = true → iterSendPending n s = s) := by
  refine ⟨?_, iterSendPending_of_sent n s⟩
  induction n generalizing s with
  | zero => simp [iterSendPending]
  | succ n ih =>
    rw [iterSendPending]
    rcases sendPendingMessage_step_cases s with ⟨hlog, _⟩ | ⟨m, _, _, hlog, hsent⟩
    · have := ih (sendPendingMessage s)
      rw [hlog] at this
      exact this
    · rw [iterSendPending_of_sent n _ hsent, hlog]
      simp [sendsIn, List.filterMap_append]

/-- A state whose message is already sent, for the C4 witness. -/
def sentState : ChatState :=
  { baseState with pendingMessage := some "hello", messageSent := true }

/-- Witness for C4: with the `messageSent` latch set, three further
invocations deliver nothing and change nothing. -/
theorem sendPendingMessage_at_most_once_witness :
    sentState.messageSent = true ∧ iterSendPending 3 sentState = sentState :=
  ⟨rfl, (sendPendingMessage_at_most_once sentState 3).2 rfl⟩

/-! ## C8: minimize detection with confirmation delay -/

/-- C8: in inline presentation (visible container, no FAB override), a
class mutation taking the widget iframe from maximized to non-maximized
that still holds when the confirmation timeout fires ends the
conversation: injected styles and projection classes are stripped, the
container region is reset to its welcome screen, the session id and
message counter are cleared, the pending message is dropped, and a
`SESSION_ENDED` activity event is published.  A transient flicker that
returns to maximized before the confirmation timeout fires leaves the
state exactly as it was. -/
theorem minimize_confirmed_ends_flicker_ignored (s : ChatState)
    (hobs : s.minimizeObserverActive = true)
    (hvis : s.containerVisible = true)
    (hfab : s.inFabModeOverride = false)
    (hwas : s.minimizeWasMaximized = true)
    (hmax : s.iframeMaximized = true)
    (hpend : s.pendingMinimizeConfirms = 0)
    (hcont : s.containerPresent = true)
    (hem : s.embeddedMessagingPresent = true) :
    ((runTrace s [ChatEvent.classMutation false,
        ChatEvent.minimizeConfirmTick]).sessionId = none ∧
     (runTrace s [ChatEvent.classMutation false,
        ChatEvent.minimizeConfirmTick]).messageCount = 0 ∧
     (runTrace s [ChatEvent.classMutation false,
        ChatEvent.minimizeConfirmTick]).welcomeVisible = true ∧
     (runTrace s [ChatEvent.classMutation false,
        ChatEvent.minimizeConfirmTick]).pendingMessage = none ∧
     (runTrace s [ChatEvent.classMutation false,
        ChatEvent.minimizeConfirmTick]).projectionComplete = false ∧
     (runTrace s [ChatEvent.classMutation false,
        ChatEvent.minimizeConfirmTick]).projectionStylesInjected = false ∧
     (runTrace s [ChatEvent.classMutation false,
        ChatEvent.minimizeConfirmTick]).hideFabStylesInjected = false ∧
     (runTrace s [ChatEvent.classMutation false,
        ChatEvent.minimizeConfirmTick]).emProjectedInlineClass = false ∧
     (runTrace s [ChatEvent.classMutation false,
        ChatEvent.minimizeConfirmTick]).emShowChatClass = false ∧
     (runTrace s [ChatEvent.classMutation false,
        ChatEvent.minimizeConfirmTick]).log =
       s.log ++ [Act.containerReset, Act.publishActivity "SESSION_ENDED"]) ∧
    runTrace s [ChatEvent.classMutation false, ChatEvent.classMutation true,
      ChatEvent.minimizeConfirmTick] = s := by
  cases s
  constructor
  · simp_all [runTrace, chatStep, minimizeClassMutation, minimizeConfirm,
      endChatAndReset, cleanupInlineStyles]
  · simp_all [runTrace, chatStep, minimizeClassMutation, minimizeConfirm,
      endChatAndReset, cleanupInlineStyles]

/-- A projected in-conversation state, for the C8 witness. -/
def inConversationState : ChatState :=
  { baseState with
    pendingMessage := some "hello", projectionComplete := true,
    projectionStylesInjected := true, hideFabStylesInjected := true,
    emProjectedInlineClass := true, emShowChatClass := true,
    containerElementSet := true, minimizeObserverActive := true,
    minimizeWasMaximized := true, iframeMaximized := true,
    iframePresent := true, welcomeVisible := false,
    sessionId := some "af-1", messageCount := 4 }

/-- Witness for C8 at a concrete in-conversation state. -/
theorem minimize_confirmed_ends_flicker_ignored_witness :
    inConversationState.sessionId = some "af-1" ∧
    (runTrace inConversationState [ChatEvent.classMutation false,
      ChatEvent.minimizeConfirmTick]).sessionId = none ∧
    runTrace inConversationState [ChatEvent.classMutation false,
      ChatEvent.classMutation true, ChatEvent.minimizeConfirmTick] =
      inConversationState :=
  ⟨rfl,
   (minimize_confirmed_ends_flicker_ignored inConversationState rfl rfl rfl rfl
      rfl rfl rfl rfl).1.1,
   (minimize_confirmed_ends_flicker_ignored inConversationState rfl rfl rfl rfl
      rfl rfl rfl rfl).2⟩

/-! ## C1/C2: the greeting-watcher protocol

The two temporal claims are settled against canonical state formulas for
the three phases a watcher run can be in: still watching after `t` fired
retry ticks (`watchingAt`), after the qualifying message (`postGreetingAt`
and, once the delayed flush has run, `deliveredAt`), and after the budget
was exhausted (`timedOutAt`). -/

/-- The watcher state after `t` fired retry ticks with no qualifying
message yet: the listener is attached, the timer re-armed, and `t`
`launchChat()` retries are on the log. -/
def watchingAt (s0 : ChatState) (t : Nat) : ChatState :=
  { s0 with greetingWatcherActive := true, greetingDetected := false,
            currentRetry := t, handlerAttached := true,
            retryTimerScheduled := true,
            log := s0.log ++ List.replicate t Act.launch }

/-- The state right after the qualifying message fired from `watchingAt t`:
listener detached, chat projected, delayed send scheduled; `rt` records
whether the (now stale) retry timer is still pending. -/
def postGreetingAt (s0 : ChatState) (t : Nat) (rt : Bool) : ChatState :=
  { s0 with greetingWatcherActive := false, greetingDetected := true,
            currentRetry := t, handlerAttached := false,
            retryTimerScheduled := rt, sendTimerScheduled := true,
            projectionComplete := true, containerElementSet := true,
            emProjectedInlineClass := true, emShowChatClass := true,
            projectionStylesInjected := true, minimizeObserverActive := true,
            minimizeWasMaximized := true, hideFabStylesInjected := true,
            log := s0.log ++ List.replicate t Act.launch }

/-- `postGreetingAt` after the scheduled `_sendPendingMessage` flushed the
pending message `m`. -/
def deliveredAt (s0 : ChatState) (m : String) (t : Nat) (rt : Bool) : ChatState :=
  { s0 with greetingWatcherActive := false, greetingDetected := true,
            currentRetry := t, handlerAttached := false,
            retryTimerScheduled := rt, sendTimerScheduled := false,
            messageSent := true,
            projectionComplete := true, containerElementSet := true,
            emProjectedInlineClass := true, emShowChatClass := true,
            projectionStylesInjected := true, minimizeObserverActive := true,
            minimizeWasMaximized := true, hideFabStylesInjected := true,
            log := s0.log ++ (List.replicate t Act.launch ++ [Act.sendText m]) }

/-- The state after the watcher exhausted its budget: 15 launch retries on
the log, then the timeout handler's warning, container reset, iframe
removal, storage clear and the single scheduled re-initialization. -/
def timedOutAt (s0 : ChatState) : ChatState :=
  { s0 with greetingWatcherActive := false, greetingDetected := false,
            handlerAttached := false, currentRetry := greetingMaxRetries,
            retryTimerScheduled := false,
            pendingMessage := none, messageSent := false,
            projectionComplete := false, projectionAttempts := 0,
            containerElementSet := false, welcomeVisible := true,
            conversationEnded := true, bootstrapInitialized := false,
            apiReady := false, iframePresent := false,
            widgetStoragePresent := false,
            log := s0.log ++ (List.replicate greetingMaxRetries Act.launch ++
              [Act.showToastWarning, Act.containerReset, Act.removeIframe,
               Act.clearStorage, Act.scheduleReInit]) }

theorem watchForAgentGreeting_starts (s0 : ChatState) (m : String)
    (hp : s0.pendingMessage = some m) (hsent : s0.messageSent = false)
    (hw : s0.greetingWatcherActive = false) :
    watchForAgentGreeting s0 = watchingAt s0 0 := by
  rw [watchForAgentGreeting, watchingAt]
  simp [hp, hsent, hw]

/-- A message from the end user never triggers the watcher: every branch
of the handler returns the state unchanged. -/
theorem greetingMessageEvent_endUser (s : ChatState) :
    greetingMessageEvent s "EndUser" = s := by
  rw [greetingMessageEvent]
  split
  · rfl
  · split
    · rfl
    · simp

theorem greetingRetryTick_watching (s0 : ChatState) (t : Nat)
    (hsent : s0.messageSent = false) (hapi : s0.utilApiAvailable = true)
    (hlt : t < greetingMaxRetries) :
    greetingRetryTick (watchingAt s0 t) = watchingAt s0 (t + 1) := by
  rw [greetingRetryTick, watchingAt, watchingAt]
  simp [hsent, hapi, hlt, List.replicate_succ']

theorem greetingRetryTick_timesOut (s0 : ChatState)
    (hsent : s0.messageSent = false) (hcont : s0.containerPresent = true)
    (hem : s0.embeddedMessagingPresent = true)
    (hifr : s0.iframePresent = true) :
    greetingRetryTick (watchingAt s0 greetingMaxRetries) = timedOutAt s0 := by
  simp [greetingRetryTick, watchingAt, timedOutAt, handleAgentGreetingTimeout,
    attemptReInit, clearEmbeddedServiceStoragePreInit, hsent, hcont, hem, hifr]

theorem greetingRetryTick_timedOut (s0 : ChatState) :
    greetingRetryTick (timedOutAt s0) = timedOutAt s0 := by
  rw [greetingRetryTick, timedOutAt]
  simp

theorem greetingMessageEvent_timedOut (s0 : ChatState) (sender : String) :
    greetingMessageEvent (timedOutAt s0) sender = timedOutAt s0 := by
  rw [greetingMessageEvent, timedOutAt]
  simp

/-- The timed-out state absorbs any further watcher-protocol events: the
retry timer is gone and the listener detached, so stale callbacks die. -/
theorem runTrace_timedOut (s0 : ChatState) :
    ∀ es : List ChatEvent,
      (∀ e ∈ es, e = ChatEvent.retryTick ∨ e = ChatEvent.msgEvent "EndUser") →
      runTrace (timedOutAt s0) es = timedOutAt s0 := by
  intro es
  induction es with
  | nil => intro _; rfl
  | cons e es ih =>
    intro hall
    rcases hall e (List.mem_cons_self e es) with he | he <;> subst he
    · rw [runTrace, chatStep, greetingRetryTick_timedOut]
      exact ih fun e he => hall e (List.mem_cons_of_mem _ he)
    · rw [runTrace, chatStep, greetingMessageEvent_timedOut]
      exact ih fun e he => hall e (List.mem_cons_of_mem _ he)

/-- Canonical run of the watching phase: a trace of retry ticks and
end-user messages leaves the watcher in `watchingAt` while at most 15
ticks have fired in total, and in `timedOutAt` from the 16th tick on. -/
theorem runTrace_watching (s0 : ChatState)
    (hsent : s0.messageSent = false) (hapi : s0.utilApiAvailable = true)
    (hcont : s0.containerPresent = true)
    (hem : s0.embeddedMessagingPresent = true)
    (hifr : s0.iframePresent = true) :
    ∀ (es : List ChatEvent) (t : Nat), t ≤ greetingMaxRetries →
      (∀ e ∈ es, e = ChatEvent.retryTick ∨ e = ChatEvent.msgEvent "EndUser") →
      runTrace (watchingAt s0 t) es =
        if t + countRetryTicks es ≤ greetingMaxRetries then
          watchingAt s0 (t + countRetryTicks es)
        else timedOutAt s0 := by
  intro es
  induction es with
  | nil =>
    intro t ht _
    rw [runTrace]
    simp [countRetryTicks, ht]
  | cons e es ih =>
    intro t ht hall
    have hall' : ∀ e ∈ es, e = ChatEvent.retryTick ∨ e = ChatEvent.msgEvent "EndUser" :=
      fun e he => hall e (List.mem_cons_of_mem _ he)
    rcases hall e (List.mem_cons_self e es) with he | he <;> subst he
    · rw [runTrace, chatStep]
      by_cases hlt : t < greetingMaxRetries
      · rw [greetingRetryTick_watching s0 t hsent hapi hlt,
          ih (t + 1) (by omega) hall']
        have hcnt : t + countRetryTicks (ChatEvent.retryTick :: es) =
            (t + 1) + countRetryTicks es := by
          simp [countRetryTicks, List.countP_cons]
          omega
        rw [hcnt]
      · have ht15 : t = greetingMaxRetries := by omega
        subst ht15
        rw [greetingRetryTick_timesOut s0 hsent hcont hem hifr,
          runTrace_timedOut s0 es hall']
        have : ¬greetingMaxRetries +
            countRetryTicks (ChatEvent.retryTick :: es) ≤ greetingMaxRetries := by
          simp [countRetryTicks, List.countP_cons]
        rw [if_neg this]
    · rw [runTrace, chatStep, greetingMessageEvent_endUser,
        ih t ht hall']
      have hcnt : countRetryTicks (ChatEvent.msgEvent "EndUser" :: es) =
          countRetryTicks es := by
        simp [countRetryTicks, List.countP_cons]
      rw [hcnt]

/-- C2: started on a pending message, if every event the watcher sees is a
retry tick or an end-user message — no qualifying message — then from the
16th tick on (15 retries of 4000 ms each, ≈60 s ceiling) the run has
terminated in the timed-out state, whatever else fires afterwards: the
pending-message state is cleared, the user got the warning toast, the
container was reset to its welcome screen, persisted widget storage was
cleared, and the appended log is exactly the 15 `launchChat()` retries
followed by the timeout handling — the storage clear strictly preceding
the single scheduled re-initialization. -/
theorem greeting_timeout_behavior (s0 : ChatState) (m : String)
    (hp : s0.pendingMessage = some m) (hsent : s0.messageSent = false)
    (hw : s0.greetingWatcherActive = false)
    (hapi : s0.utilApiAvailable = true)
    (hcont : s0.containerPresent = true)
    (hem : s0.embeddedMessagingPresent = true)
    (hifr : s0.iframePresent = true)
    (es : List ChatEvent)
    (hall : ∀ e ∈ es, e = ChatEvent.retryTick ∨ e = ChatEvent.msgEvent "EndUser")
    (hticks : greetingMaxRetries + 1 ≤ countRetryTicks es) :
    (runTrace (watchForAgentGreeting s0) es).pendingMessage = none ∧
    (runTrace (watchForAgentGreeting s0) es).messageSent = false ∧
    (runTrace (watchForAgentGreeting s0) es).greetingWatcherActive = false ∧
    (runTrace (watchForAgentGreeting s0) es).welcomeVisible = true ∧
    (runTrace (watchForAgentGreeting s0) es).widgetStoragePresent = false ∧
    (runTrace (watchForAgentGreeting s0) es).log = s0.log ++
      (List.replicate greetingMaxRetries Act.launch ++
        [Act.showToastWarning, Act.containerReset, Act.removeIframe,
         Act.clearStorage, Act.scheduleReInit]) ∧
    reInitsIn ((runTrace (watchForAgentGreeting s0) es).log.drop
      s0.log.length) = 1 ∧
    greetingMaxRetries = 15 ∧ greetingRetryTimeoutMs = 4000 := by
  have hrun : runTrace (watchForAgentGreeting s0) es = timedOutAt s0 := by
    rw [watchForAgentGreeting_starts s0 m hp hsent hw,
      runTrace_watching s0 hsent hapi hcont hem hifr es 0 (by omega) hall,
      if_neg (by omega)]
  rw [hrun]
  refine ⟨rfl, rfl, rfl, rfl, rfl, rfl, ?_, rfl, rfl⟩
  rw [timedOutAt]
  simp only [List.drop_left]
  decide

/-- A ready-to-watch state, for the C1/C2 witnesses. -/
def greetingScenarioState : ChatState :=
  { baseState with pendingMessage := some "hello", iframePresent := true }

/-- Witness for C2: sixteen retry-timer firings with no qualifying message
clear the pending message and schedule exactly one re-initialization. -/
theorem greeting_timeout_behavior_witness :
    (runTrace (watchForAgentGreeting greetingScenarioState)
      (List.replicate 16 ChatEvent.retryTick)).pendingMessage = none ∧
    reInitsIn ((runTrace (watchForAgentGreeting greetingScenarioState)
      (List.replicate 16 ChatEvent.retryTick)).log.drop
        greetingScenarioState.log.length) = 1 := by
  have h := greeting_timeout_behavior greetingScenarioState "hello" rfl rfl rfl
    rfl rfl rfl rfl (List.replicate 16 ChatEvent.retryTick)
    (by decide) (by decide)
  exact ⟨h.1, h.2.2.2.2.2.2.1⟩

/-! ### The post-greeting phase (C1) -/

theorem sendsIn_append (a b : List Act) :
    sendsIn (a ++ b) = sendsIn a ++ sendsIn b := by
  simp [sendsIn]

theorem launchesIn_append (a b : List Act) :
    launchesIn (a ++ b) = launchesIn a + launchesIn b := by
  simp [launchesIn, List.countP_append]

theorem reInitsIn_append (a b : List Act) :
    reInitsIn (a ++ b) = reInitsIn a + reInitsIn b := by
  simp [reInitsIn, List.countP_append]

theorem sendsIn_replicate_launch (n : Nat) :
    sendsIn (List.replicate n Act.launch) = [] := by
  induction n with
  | zero => rfl
  | succ n ih => rw [List.replicate_succ, sendsIn, List.filterMap_cons]; exact ih

theorem launchesIn_replicate_launch (n : Nat) :
    launchesIn (List.replicate n Act.launch) = n := by
  induction n with
  | zero => rfl
  | succ n ih => simp [List.replicate_succ, launchesIn, List.countP_cons] at ih ⊢; omega

theorem reInitsIn_replicate_launch (n : Nat) :
    reInitsIn (List.replicate n Act.launch) = 0 := by
  induction n with
  | zero => rfl
  | succ n ih => simp [List.replicate_succ, reInitsIn, List.countP_cons, ih]

/-- The qualifying message, received while watching: the listener latches
and detaches, the chat is projected and the delayed flush is armed. -/
theorem greetingMessageEvent_watching (s0 : ChatState) (t : Nat) (sender : String)
    (hsender : (sender == "EndUser") = false)
    (hsent : s0.messageSent = false) (hproj : s0.projectionComplete = false)
    (hfab : s0.inFabModeOverride = false) (hcont : s0.containerPresent = true)
    (hem : s0.embeddedMessagingPresent = true) :
    greetingMessageEvent (watchingAt s0 t) sender = postGreetingAt s0 t true := by
  simp [greetingMessageEvent, watchingAt, postGreetingAt, projectChatToContainer,
    injectProjectionStyles_eq, watchForMinimize, hideFabButton_eq,
    hsender, hsent, hproj, hfab, hcont, hem]

/-- A stale retry tick after the greeting was detected dies without
launching and without re-arming the timer. -/
theorem greetingRetryTick_post (s0 : ChatState) (t : Nat) (rt : Bool) :
    greetingRetryTick (postGreetingAt s0 t rt) = postGreetingAt s0 t false := by
  cases rt <;> simp [greetingRetryTick, postGreetingAt]

/-- Further message events after the listener was removed are ignored. -/
theorem greetingMessageEvent_post (s0 : ChatState) (t : Nat) (rt : Bool)
    (sender : String) :
    greetingMessageEvent (postGreetingAt s0 t rt) sender =
      postGreetingAt s0 t rt := by
  simp [greetingMessageEvent, postGreetingAt]

/-- The armed flush delivers the pending message. -/
theorem sendFlushStep_post (s0 : ChatState) (m : String) (t : Nat) (rt : Bool)
    (hp : s0.pendingMessage = some m) (hsent : s0.messageSent = false)
    (hapi : s0.utilApiAvailable = true) (hthrow : s0.sendTextThrows = false) :
    sendFlushStep (postGreetingAt s0 t rt) = deliveredAt s0 m t rt := by
  simp [sendFlushStep, sendPendingMessage, postGreetingAt, deliveredAt,
    hp, hsent, hapi, hthrow]

theorem greetingRetryTick_delivered (s0 : ChatState) (m : String) (t : Nat)
    (rt : Bool) :
    greetingRetryTick (deliveredAt s0 m t rt) = deliveredAt s0 m t false := by
  cases rt <;> simp [greetingRetryTick, deliveredAt]

theorem greetingMessageEvent_delivered (s0 : ChatState) (m : String) (t : Nat)
    (rt : Bool) (sender : String) :
    greetingMessageEvent (deliveredAt s0 m t rt) sender =
      deliveredAt s0 m t rt := by
  simp [greetingMessageEvent, deliveredAt]

theorem sendFlushStep_delivered (s0 : ChatState) (m : String) (t : Nat)
    (rt : Bool) :
    sendFlushStep (deliveredAt s0 m t rt) = deliveredAt s0 m t rt := by
  simp [sendFlushStep, deliveredAt]

/-- The delivered state absorbs any further protocol events. -/
theorem runTrace_delivered (s0 : ChatState) (m : String) (t : Nat) :
    ∀ (es : List ChatEvent) (rt : Bool),
      (∀ e ∈ es, e = ChatEvent.retryTick ∨ (∃ sndr, e = ChatEvent.msgEvent sndr) ∨
        e = ChatEvent.sendFlush) →
      ∃ rt2, runTrace (deliveredAt s0 m t rt) es = deliveredAt s0 m t rt2 := by
  intro es
  induction es with
  | nil => exact fun rt _ => ⟨rt, rfl⟩
  | cons e es ih =>
    intro rt hall
    have hall' : ∀ e ∈ es, e = ChatEvent.retryTick ∨
        (∃ sndr, e = ChatEvent.msgEvent sndr) ∨ e = ChatEvent.sendFlush :=
      fun e he => hall e (List.mem_cons_of_mem _ he)
    rcases hall e (List.mem_cons_self e es) with he | ⟨sndr, he⟩ | he <;> subst he
    · rw [runTrace, chatStep, greetingRetryTick_delivered]
      exact ih false hall'
    · rw [runTrace, chatStep, greetingMessageEvent_delivered]
      exact ih rt hall'
    · rw [runTrace, chatStep, sendFlushStep_delivered]
      exact ih rt hall'

/-- Canonical run of the post-greeting phase: protocol events keep the
state in the post-greeting family, and from the first flush on in the
delivered family. -/
theorem runTrace_post (s0 : ChatState) (m : String) (t : Nat)
    (hp : s0.pendingMessage = some m) (hsent : s0.messageSent = false)
    (hapi : s0.utilApiAvailable = true) (hthrow : s0.sendTextThrows = false) :
    ∀ (es : List ChatEvent) (rt : Bool),
      (∀ e ∈ es, e = ChatEvent.retryTick ∨ (∃ sndr, e = ChatEvent.msgEvent sndr) ∨
        e = ChatEvent.sendFlush) →
      (ChatEvent.sendFlush ∈ es →
        ∃ rt2, runTrace (postGreetingAt s0 t rt) es = deliveredAt s0 m t rt2) ∧
      (ChatEvent.sendFlush ∉ es →
        ∃ rt2, runTrace (postGreetingAt s0 t rt) es = postGreetingAt s0 t rt2) := by
  intro es
  induction es with
  | nil =>
    exact fun rt _ => ⟨fun h => absurd h (List.not_mem_nil _), fun _ => ⟨rt, rfl⟩⟩
  | cons e es ih =>
    intro rt hall
    have hall' : ∀ e ∈ es, e = ChatEvent.retryTick ∨
        (∃ sndr, e = ChatEvent.msgEvent sndr) ∨ e = ChatEvent.sendFlush :=
      fun e he => hall e (List.mem_cons_of_mem _ he)
    rcases hall e (List.mem_cons_self e es) with he | ⟨sndr, he⟩ | he <;> subst he
    · constructor
      · intro hmem
        have hmem' : ChatEvent.sendFlush ∈ es := by
          rcases List.mem_cons.mp hmem with h | h
          · cases h
          · exact h
        rw [runTrace, chatStep, greetingRetryTick_post]
        exact (ih false hall').1 hmem'
      · intro hmem
        have hmem' : ChatEvent.sendFlush ∉ es :=
          fun h => hmem (List.mem_cons_of_mem _ h)
        rw [runTrace, chatStep, greetingRetryTick_post]
        exact (ih false hall').2 hmem'
    · constructor
      · intro hmem
        have hmem' : ChatEvent.sendFlush ∈ es := by
          rcases List.mem_cons.mp hmem with h | h
          · cases h
          · exact h
        rw [runTrace, chatStep, greetingMessageEvent_post]
        exact (ih rt hall').1 hmem'
      · intro hmem
        have hmem' : ChatEvent.sendFlush ∉ es :=
          fun h => hmem (List.mem_cons_of_mem _ h)
        rw [runTrace, chatStep, greetingMessageEvent_post]
        exact (ih rt hall').2 hmem'
    · constructor
      · intro _
        rw [runTrace, chatStep, sendFlushStep_post s0 m t rt hp hsent hapi hthrow]
        exact runTrace_delivered s0 m t es rt hall'
      · intro hmem
        exact absurd (List.mem_cons_self _ _) hmem

/-- C1: while the greeting watcher is active with a pending message `m`,
if a message event whose sender is not `EndUser` fires before the retry
budget is exhausted (at most 15 ticks fired so far), then — whatever
protocol events follow, provided the scheduled flush eventually fires —
the chat is projected and revealed, the pending message is delivered to
`sendTextMessage` exactly once, no further `launchChat()` retries fire
after the qualifying message, and no re-initialization is ever
scheduled. -/
theorem greeting_detection_behavior (s0 : ChatState) (m sender : String)
    (pre post : List ChatEvent)
    (hp : s0.pendingMessage = some m) (hsent : s0.messageSent = false)
    (hw : s0.greetingWatcherActive = false)
    (hproj : s0.projectionComplete = false)
    (hfab : s0.inFabModeOverride = false)
    (hcont : s0.containerPresent = true)
    (hem : s0.embeddedMessagingPresent = true)
    (hifr : s0.iframePresent = true)
    (hapi : s0.utilApiAvailable = true)
    (hthrow : s0.sendTextThrows = false)
    (hpre : ∀ e ∈ pre, e = ChatEvent.retryTick ∨ e = ChatEvent.msgEvent "EndUser")
    (hpre15 : countRetryTicks pre ≤ greetingMaxRetries)
    (hsender : (sender == "EndUser") = false)
    (hpost : ∀ e ∈ post, e = ChatEvent.retryTick ∨
      (∃ sndr, e = ChatEvent.msgEvent sndr) ∨ e = ChatEvent.sendFlush)
    (hflush : ChatEvent.sendFlush ∈ post) :
    (runTrace (watchForAgentGreeting s0)
      (pre ++ ChatEvent.msgEvent sender :: post)).projectionComplete = true ∧
    (runTrace (watchForAgentGreeting s0)
      (pre ++ ChatEvent.msgEvent sender :: post)).emShowChatClass = true ∧
    (runTrace (watchForAgentGreeting s0)
      (pre ++ ChatEvent.msgEvent sender :: post)).messageSent = true ∧
    sendsIn (runTrace (watchForAgentGreeting s0)
      (pre ++ ChatEvent.msgEvent sender :: post)).log =
      sendsIn s0.log ++ [m] ∧
    launchesIn (runTrace (watchForAgentGreeting s0)
      (pre ++ ChatEvent.msgEvent sender :: post)).log =
      launchesIn (runTrace (watchForAgentGreeting s0)
        (pre ++ [ChatEvent.msgEvent sender])).log ∧
    launchesIn (runTrace (watchForAgentGreeting s0)
      (pre ++ ChatEvent.msgEvent sender :: post)).log =
      launchesIn s0.log + countRetryTicks pre ∧
    reInitsIn (runTrace (watchForAgentGreeting s0)
      (pre ++ ChatEvent.msgEvent sender :: post)).log = reInitsIn s0.log := by
  have hwatch : runTrace (watchForAgentGreeting s0) pre =
      watchingAt s0 (countRetryTicks pre) := by
    rw [watchForAgentGreeting_starts s0 m hp hsent hw,
      runTrace_watching s0 hsent hapi hcont hem hifr pre 0 (by omega) hpre,
      if_pos (by omega), Nat.zero_add]
  have hmid : runTrace (watchForAgentGreeting s0)
      (pre ++ [ChatEvent.msgEvent sender]) =
      postGreetingAt s0 (countRetryTicks pre) true := by
    rw [runTrace_append, hwatch, runTrace, chatStep, runTrace,
      greetingMessageEvent_watching s0 _ sender hsender hsent hproj hfab hcont hem]
  obtain ⟨rt2, hdel⟩ := (runTrace_post s0 m (countRetryTicks pre) hp hsent hapi
    hthrow post true hpost).1 hflush
  have hfull : runTrace (watchForAgentGreeting s0)
      (pre ++ ChatEvent.msgEvent sender :: post) =
      deliveredAt s0 m (countRetryTicks pre) rt2 := by
    have hsplit : pre ++ ChatEvent.msgEvent sender :: post =
        (pre ++ [ChatEvent.msgEvent sender]) ++ post := by
      simp
    rw [hsplit, runTrace_append, hmid, hdel]
  rw [hfull, hmid]
  refine ⟨rfl, rfl, rfl, ?_, ?_, ?_, ?_⟩
  · rw [deliveredAt]
    simp only [sendsIn_append, sendsIn_replicate_launch]
    simp [sendsIn]
  · rw [deliveredAt, postGreetingAt]
    simp only [launchesIn_append, launchesIn_replicate_launch]
    simp [launchesIn]
  · rw [deliveredAt]
    simp only [launchesIn_append, launchesIn_replicate_launch]
    simp [launchesIn]
  · rw [deliveredAt]
    simp only [reInitsIn_append, reInitsIn_replicate_launch]
    simp [reInitsIn]

/-- Witness for C1: an agent message straight away, then the flush. -/
theorem greeting_detection_behavior_witness :
    (runTrace (watchForAgentGreeting greetingScenarioState)
      ([] ++ ChatEvent.msgEvent "Agent" :: [ChatEvent.sendFlush])).messageSent
      = true ∧
    sendsIn (runTrace (watchForAgentGreeting greetingScenarioState)
      ([] ++ ChatEvent.msgEvent "Agent" :: [ChatEvent.sendFlush])).log =
      sendsIn greetingScenarioState.log ++ ["hello"] := by
  have h := greeting_detection_behavior greetingScenarioState "hello" "Agent"
    [] [ChatEvent.sendFlush] rfl rfl rfl rfl rfl rfl rfl rfl rfl rfl
    (by decide) (by decide) (by decide)
    (by
      intro e he
      rw [List.mem_singleton] at he
      subst he
      exact Or.inr (Or.inr rfl))
    (by decide)
  exact ⟨h.2.2.1, h.2.2.2.1⟩

end AgentforceSpec
